import Mathlib

/-!
Shallow embedding of the security/authorization core of the duda-portal
repository (a multi-tenant client-content portal), together with proofs of
the frozen claims about it.

Each definition mirrors one function of the TypeScript source:
  * `src/lib/utils/errors.ts`           — typed API errors
  * `src/app/page.tsx` (public GET)     — public content gate
  * `src/lib/auth/session` (part_006)   — refresh tokens, lockout counters
  * `src/lib/db/sites.ts` (part_009)    — site updates, site permissions
  * `src/lib/db/collections.ts`         — collection item reorder / delete
  * `src/lib/auth/password.ts`          — password validation / generation
  * `src/app/api/auth/login` (route)    — client login flow
  * `.../items/[itemId]/route.ts`       — client item DELETE endpoint

Database state is modelled as explicit lists of rows; the supabase
`.single()` combinator is modelled by `singleMatch` (exactly one matching
row, otherwise an error result); timestamps are naturals (milliseconds);
randomness is passed in explicitly as an oracle structure.
-/

namespace DudaPortal

/-! ## Errors (`src/lib/utils/errors.ts`) -/

/-- An `ApiError` as thrown by the routes: HTTP status code, the
user-facing message and the class name. -/
structure ApiError where
  statusCode : Nat
  userMessage : String
  name : String
deriving Repr, DecidableEq

def UnauthorizedError (message : String := "Unauthorized") : ApiError :=
  ⟨401, message, "UnauthorizedError"⟩

def ForbiddenError (message : String := "Access denied") : ApiError :=
  ⟨403, message, "ForbiddenError"⟩

def NotFoundError (message : String := "Resource not found") : ApiError :=
  ⟨404, message, "NotFoundError"⟩

def ValidationError (message : String) : ApiError :=
  ⟨400, message, "ValidationError"⟩

def ConflictError (message : String := "Resource already exists") : ApiError :=
  ⟨409, message, "ConflictError"⟩

def RateLimitError : ApiError :=
  ⟨429, "Too many requests. Please try again later.", "RateLimitError"⟩

/-- `errorResponse` (src/lib/utils/response.ts): the HTTP response produced
from an `ApiError` — its status code and the `error` field of the JSON body.
Two errors produce byte-identical responses iff these pairs are equal. -/
def errorResponse (e : ApiError) : Nat × String :=
  (e.statusCode, e.userMessage)

/-! ## Shared row-lookup combinator

Supabase `.select(...).eq(...).single()` succeeds iff exactly one row
matches; zero or several rows yield an error, which every call site in the
source treats the same as "no data". -/

def singleMatch {α : Type} (rows : List α) (p : α → Bool) : Option α :=
  match rows.filter p with
  | [r] => some r
  | _ => none

/-! ## Sites and the public content gate (`src/app/page.tsx` GET) -/

/-- A row of the `sites` table (the columns the claims touch). -/
structure Site where
  id : String
  name : String
  slug : String
  status : String
  api_key : String
  client_id : Option String
  published_at : Option Nat
deriving Repr, DecidableEq

/-- `[a-z0-9]` -/
def isSlugAlnum (c : Char) : Bool :=
  (Char.isLower c && c.isAlpha) || c.isDigit

/-- `[a-z0-9-]` -/
def isSlugMid (c : Char) : Bool :=
  isSlugAlnum c || c == '-'

/-- Tail of the slug regex: middle characters from `[a-z0-9-]`, the final
character from `[a-z0-9]`. -/
def slugTail : List Char → Bool
  | [] => false
  | [c] => isSlugAlnum c
  | c :: rest => isSlugMid c && slugTail rest

/-- The regex `/^[a-z0-9][a-z0-9-]*[a-z0-9]$/` of the public GET handler. -/
def slugRegexTest (s : String) : Bool :=
  match s.toList with
  | [] => false
  | [_] => false
  | c :: rest => isSlugAlnum c && slugTail rest

/-- The guard `!/^[a-z0-9][a-z0-9-]*[a-z0-9]$/.test(slug) || slug.length < 2`
of the public GET handler. -/
def slugMalformed (slug : String) : Bool :=
  !slugRegexTest slug || slug.length < 2

/-- Result of the public content GET: either the matched published site
(whose content is then aggregated and returned with status 200 — the
aggregation itself involves no further failure branching) or an ApiError
rendered by `errorResponse`. -/
inductive GetContentResult where
  | ok (site : Site)
  | err (e : ApiError)
deriving Repr, DecidableEq

/-- `GET /api/public/sites/[slug]/content` (src/app/page.tsx), stages 1–5:
rate limiting, API-key presence, slug syntax, combined slug+key lookup with
anti-enumeration error shaping, published-status check. -/
def getContent (sites : List Site) (apiKey : Option String) (slug : String)
    (rateLimited : Bool) : GetContentResult :=
  if rateLimited then
    .err RateLimitError
  else
    match apiKey with
    | none => .err (UnauthorizedError "API key required")
    | some key =>
      if slugMalformed slug then
        .err (ValidationError "Invalid site identifier")
      else
        match singleMatch sites (fun s => s.slug == slug && s.api_key == key) with
        | none => .err (NotFoundError "Site not found or invalid API key")
        | some site =>
          if site.status != "published" then
            .err (NotFoundError "Site not found or invalid API key")
          else
            .ok site

/-! ## Token store (`src/lib/auth/session`, src/unnamed/part_006)

The `refresh_tokens` table is a list of records; `hash` is the SHA-256
digest passed in as an oracle (the proofs need nothing about it beyond what
the lookups themselves observe); timestamps are milliseconds; the fresh
secret and fresh row id produced by `generateToken`/the database are
explicit arguments. -/

/-- A row of the `refresh_tokens` table. -/
structure TokenRecord where
  id : Nat
  user_id : String
  user_type : String
  token_hash : String
  expires_at : Nat
  revoked_at : Option Nat
deriving Repr, DecidableEq

/-- `REFRESH_TOKEN_EXPIRY = 7 * 24 * 60 * 60` seconds. -/
def REFRESH_TOKEN_EXPIRY : Nat := 7 * 24 * 60 * 60

/-- `.eq('token_hash', h).single()` lookup. -/
def findByHash (store : List TokenRecord) (h : String) : Option TokenRecord :=
  singleMatch store (fun r => r.token_hash == h)

/-- `createRefreshToken`: insert a row holding only the hash of the fresh
secret, expiring 7 days from now; return the clear secret and expiry. -/
def createRefreshToken (hash : String → String) (store : List TokenRecord)
    (freshId : Nat) (freshSecret : String) (userId userType : String)
    (now : Nat) : List TokenRecord × String × Nat :=
  let expiresAt := now + REFRESH_TOKEN_EXPIRY * 1000
  (store ++ [⟨freshId, userId, userType, hash freshSecret, expiresAt, none⟩],
   freshSecret, expiresAt)

/-- The db update `.update({revoked_at: now}).eq('id', id)`. -/
def revokeById (store : List TokenRecord) (id : Nat) (now : Nat) :
    List TokenRecord :=
  store.map (fun u => if u.id == id then { u with revoked_at := some now } else u)

/-- The successful result of `rotateRefreshToken`. -/
structure RotateSuccess where
  token : String
  expiresAt : Nat
  userId : String
  userType : String
deriving Repr, DecidableEq

/-- `rotateRefreshToken`: look the old token up by hash; reject if absent,
revoked, or expired; otherwise mark it revoked and create a new token for
the same principal. Returns the updated store and the outcome. -/
def rotateRefreshToken (hash : String → String) (store : List TokenRecord)
    (freshId : Nat) (freshSecret : String) (oldToken : String) (now : Nat) :
    List TokenRecord × Option RotateSuccess :=
  match findByHash store (hash oldToken) with
  | none => (store, none)
  | some r =>
    if r.revoked_at.isSome then (store, none)
    else if r.expires_at < now then (store, none)
    else
      let store1 := revokeById store r.id now
      let created := createRefreshToken hash store1 freshId freshSecret
        r.user_id r.user_type now
      (created.1, some ⟨created.2.1, created.2.2, r.user_id, r.user_type⟩)

/-! ## Failed-login counter, lockout, and the client login flow
(`src/unnamed/part_006` and the login route in `src/app/api/auth`) -/

/-- A row of the `clients` table (the columns the login flow touches). -/
structure Client where
  id : String
  email : String
  name : String
  is_active : Bool
  failed_login_attempts : Nat
  locked_until : Option Nat
deriving Repr, DecidableEq

/-- `incrementFailedLoginAttempts`: read-increment-write on the client row;
at `attempts >= 5` a 15-minute lockout window is stored, otherwise
`locked_until` is written back as null. Returns the updated row together
with the `{attempts, lockedUntil}` result. -/
def incrementFailedLoginAttempts (c : Client) (now : Nat) :
    Client × Nat × Option Nat :=
  let attempts := c.failed_login_attempts + 1
  let lockedUntil : Option Nat :=
    if attempts ≥ 5 then some (now + 15 * 60 * 1000) else none
  ({ c with failed_login_attempts := attempts, locked_until := lockedUntil },
   attempts, lockedUntil)

/-- `resetFailedLoginAttempts`: zero the counter and clear the lock. -/
def resetFailedLoginAttempts (c : Client) : Client :=
  { c with failed_login_attempts := 0, locked_until := none }

/-- Outcome of a client-typed login attempt, as the route's thrown errors:
`unauthorized` is the 401 "Invalid email or password", the two `forbidden`
outcomes are 403s. -/
inductive LoginResult where
  | success
  | unauthorized
  | forbiddenDeactivated
  | forbiddenLocked
deriving Repr, DecidableEq

/-- The client-typed branch of `POST /api/auth/login`: a credential
rejection raises Unauthorized and (in the route's catch block) increments
the failed-attempt counter; with correct credentials the route checks
`is_active`, then the lockout window, and on success resets the counter
before issuing tokens. Returns the updated client row and the outcome. -/
def loginClient (c : Client) (passwordCorrect : Bool) (now : Nat) :
    Client × LoginResult :=
  if !passwordCorrect then
    ((incrementFailedLoginAttempts c now).1, .unauthorized)
  else if !c.is_active then
    (c, .forbiddenDeactivated)
  else
    match c.locked_until with
    | some lockedUntil =>
      if lockedUntil > now then (c, .forbiddenLocked)
      else (resetFailedLoginAttempts c, .success)
    | none => (resetFailedLoginAttempts c, .success)

/-- A run of consecutive failed login attempts at the given timestamps. -/
def failedLogins (c : Client) (nows : List Nat) : Client :=
  nows.foldl (fun c now => (loginClient c false now).1) c

/-! ## Site permissions and the client item DELETE endpoint
(`getSitePermissions` in src/unnamed/part_009 and
`src/app/api/client/sites/[slug]/collections/[key]/items/[itemId]/route.ts`) -/

/-- A row of the `site_permissions` table. -/
structure SitePermissions where
  id : String
  site_id : String
  can_edit_business_info : Bool
  can_edit_text : Bool
  can_edit_images : Bool
  can_edit_collections : Bool
  can_add_collection_items : Bool
  can_delete_collection_items : Bool
  can_reorder_collection_items : Bool
  can_publish : Bool
deriving Repr, DecidableEq

/-- The all-false default returned when no row exists for the site. -/
def defaultSitePermissions (siteId : String) : SitePermissions :=
  ⟨"", siteId, false, false, false, false, false, false, false, false⟩

/-- `getSitePermissions(siteId, _clientId?)`: single-row lookup by site id;
a missing row yields the all-false default; the client-id argument is
accepted and unused, as in the source. -/
def getSitePermissions (rows : List SitePermissions) (siteId : String)
    (_clientId : Option String := none) : SitePermissions :=
  match singleMatch rows (fun r => r.site_id == siteId) with
  | none => defaultSitePermissions siteId
  | some r => r

/-- A row of the `collections` table (the columns the claims touch). -/
structure Collection where
  id : String
  site_id : String
  collection_key : String
  can_add : Bool
  can_delete : Bool
  can_reorder : Bool
  max_items : Option Nat
deriving Repr, DecidableEq

/-- `getCollectionByKey`: single-row lookup by site id and key (the route
turns a failed lookup into NotFound). -/
def getCollectionByKey (colls : List Collection) (siteId key : String) :
    Option Collection :=
  singleMatch colls (fun c => c.site_id == siteId && c.collection_key == key)

/-- A row of the `collection_items` table. -/
structure CollectionItem where
  id : String
  collection_id : String
  sort_order : Nat
  is_visible : Bool
deriving Repr, DecidableEq

/-- `getCollectionItem`: single-row lookup by item id. -/
def getCollectionItem (items : List CollectionItem) (id : String) :
    Option CollectionItem :=
  singleMatch items (fun i => i.id == id)

/-- The DELETE handler of
`/api/client/sites/[slug]/collections/[key]/items/[itemId]` after
authentication and rate limiting: site-level permission check, collection
lookup, collection-level `can_delete` check, item lookup, membership check,
then the actual delete (`.delete().eq('id', id)`). Returns the item table
after the call and the error, if any. -/
def deleteItemEndpoint (permRows : List SitePermissions)
    (colls : List Collection) (items : List CollectionItem)
    (siteId key itemId : String) : List CollectionItem × Option ApiError :=
  let permissions := getSitePermissions permRows siteId
  if !permissions.can_delete_collection_items then
    (items, some (ForbiddenError "You do not have permission to delete collection items"))
  else
    match getCollectionByKey colls siteId key with
    | none => (items, some (NotFoundError "Collection not found"))
    | some collection =>
      if !collection.can_delete then
        (items, some (ForbiddenError "Deleting items from this collection is not allowed"))
      else
        match getCollectionItem items itemId with
        | none => (items, some (NotFoundError "Collection item not found"))
        | some item =>
          if item.collection_id != collection.id then
            (items, some (NotFoundError "Item not found in this collection"))
          else
            (items.filter (fun i => i.id != itemId), none)

/-! ## Reordering collection items (`src/lib/db/collections.ts`) -/

/-- The updates list `itemIds.map((id, index) => ({id, sort_order: index}))`
of `reorderCollectionItems`, built with an explicit base index so the
recursion is structural; `mkReorderUpdatesFrom 0 ids` pairs each id with
its zero-based position. -/
def mkReorderUpdatesFrom (base : Nat) : List String → List (String × Nat)
  | [] => []
  | id :: rest => (id, base) :: mkReorderUpdatesFrom (base + 1) rest

/-- One db update `.update({sort_order: u.2}).eq('id', u.1)` applied to one
row. -/
def applyOne (u : String × Nat) (i : CollectionItem) : CollectionItem :=
  if i.id == u.1 then { i with sort_order := u.2 } else i

/-- The sequential update loop of `reorderCollectionItems`. -/
def applyReorderUpdates (items : List CollectionItem)
    (updates : List (String × Nat)) : List CollectionItem :=
  updates.foldl (fun acc u => acc.map (applyOne u)) items

/-- `reorderCollectionItems(collectionId, itemIds)`: first every supplied id
is checked against the set of ids belonging to the collection — the first
id that does not belong raises a ValidationError before any update is
issued; then each listed id receives its position in the list as
`sort_order`. Returns the item table after the call and the error, if
any. -/
def reorderCollectionItems (items : List CollectionItem)
    (collectionId : String) (itemIds : List String) :
    List CollectionItem × Option ApiError :=
  let existingIds :=
    (items.filter (fun i => i.collection_id == collectionId)).map (fun i => i.id)
  match itemIds.find? (fun id => !existingIds.contains id) with
  | some badId =>
    (items, some (ValidationError
      ("Item " ++ badId ++ " does not belong to this collection")))
  | none => (applyReorderUpdates items (mkReorderUpdatesFrom 0 itemIds), none)

/-! ## Updating a site (`updateSite` in src/unnamed/part_009, used by the
client publish route with `{status: 'published'}`) -/

/-- The fields of an `UpdateSiteRequest` the claims touch (the source also
carries optional preview url, custom domain and client assignment, handled
identically by the same object spread). -/
structure UpdateSiteRequest where
  name : Option String
  slug : Option String
  status : Option String
deriving Repr, DecidableEq

/-- The row mutation of `updateSite`: spread the provided fields over the
row and, whenever the requested status is `'published'`, also set
`published_at` to the present time. -/
def applySiteUpdate (s : Site) (input : UpdateSiteRequest) (now : Nat) : Site :=
  let s1 := { s with
    name := input.name.getD s.name,
    slug := input.slug.getD s.slug,
    status := input.status.getD s.status }
  if input.status == some "published" then { s1 with published_at := some now }
  else s1

/-- `updateSite(id, input)`: reject a slug change colliding with another
site, apply the update to the row with the given id, and return the updated
table together with the updated row (a missing row is NotFound). -/
def updateSite (sites : List Site) (id : String) (input : UpdateSiteRequest)
    (now : Nat) : Except ApiError (List Site × Site) :=
  if (match input.slug with
      | some slg => sites.any (fun t => t.slug == slg && t.id != id)
      | none => false) then
    .error (ConflictError "Site with this slug already exists")
  else
    match singleMatch sites (fun s => s.id == id) with
    | none => .error (NotFoundError "Site not found")
    | some s =>
      .ok (sites.map (fun t => if t.id == id then applySiteUpdate t input now else t),
           applySiteUpdate s input now)

/-! ## Password policy engine (`src/lib/auth/password.ts`) -/

/-- The common-password denylist of the source (its JS `Set` deduplicates
the repeated entry `'master'`; list membership is unaffected). -/
def COMMON_PASSWORDS : List String :=
  ["password", "password1", "password123", "123456", "12345678", "123456789",
   "1234567890", "qwerty", "qwerty123", "abc123", "monkey", "letmein",
   "trustno1", "dragon", "baseball", "iloveyou", "master", "sunshine",
   "ashley", "bailey", "passw0rd", "shadow", "welcome", "welcome1",
   "michael", "login", "admin", "admin123", "root", "toor", "pass", "test",
   "guest", "changeme", "hello", "hello123", "secret", "secret123"]

/-- `/[a-z]/` -/
def isLowerAlpha (c : Char) : Bool := 'a' ≤ c && c ≤ 'z'

/-- `/[A-Z]/` -/
def isUpperAlpha (c : Char) : Bool := 'A' ≤ c && c ≤ 'Z'

/-- `/\d/` -/
def isDigitChar (c : Char) : Bool := '0' ≤ c && c ≤ '9'

/-- The character class of the special-character regex of
`validatePassword` (codes 123/125 are the braces, 39 the apostrophe and 34
the double quote). -/
def specialChars : List Char :=
  ['!', '@', '#', '$', '%', '^', '&', '*', '(', ')', '_', '+', '-', '=',
   '[', ']', Char.ofNat 123, Char.ofNat 125, ';', Char.ofNat 39, ':',
   Char.ofNat 34, '\\', '|', ',', '.', '<', '>', '/', '?']

def isSpecialChar (c : Char) : Bool := specialChars.contains c

/-- Prefix test used by the substring model of JS `String.includes`. -/
def startsWithChars : List Char → List Char → Bool
  | [], _ => true
  | _ :: _, [] => false
  | a :: as, b :: bs => a == b && startsWithChars as bs

/-- Substring test: JS `haystack.includes(needle)` / a regex alternation of
literal triples. -/
def containsSub (needle : List Char) : List Char → Bool
  | [] => needle.isEmpty
  | c :: rest => startsWithChars needle (c :: rest) || containsSub needle rest

/-- `/(.)\1{2,}/`: three or more identical consecutive characters. -/
def hasTripleRepeat : List Char → Bool
  | a :: b :: c :: rest => (a == b && b == c) || hasTripleRepeat (b :: c :: rest)
  | _ => false

/-- `/012|123|234|345|456|567|678|789|890/` -/
def seqNumberTriples : List String :=
  ["012", "123", "234", "345", "456", "567", "678", "789", "890"]

/-- The alternation of three-letter ascending runs, matched
case-insensitively in the source. -/
def seqLetterTriples : List String :=
  ["abc", "bcd", "cde", "def", "efg", "fgh", "ghi", "hij", "ijk", "jkl",
   "klm", "lmn", "mno", "nop", "opq", "pqr", "qrs", "rst", "stu", "tuv",
   "uvw", "vwx", "wxy", "xyz"]

/-- Result of `validatePassword`. -/
structure PasswordValidationResult where
  valid : Bool
  errors : List String
deriving Repr, DecidableEq

/-- `validatePassword(password, email?)`: every rule is checked
independently and every violation is reported, in the source's order. -/
def validatePassword (password : String) (email : Option String) :
    PasswordValidationResult :=
  let p := password.toList
  let lower := p.map Char.toLower
  let errors :=
    (if p.length < 12 then ["Password must be at least 12 characters long"] else [])
    ++ (if p.length > 128 then ["Password must be at most 128 characters long"] else [])
    ++ (if !(p.any isLowerAlpha) then
          ["Password must contain at least one lowercase letter"] else [])
    ++ (if !(p.any isUpperAlpha) then
          ["Password must contain at least one uppercase letter"] else [])
    ++ (if !(p.any isDigitChar) then
          ["Password must contain at least one number"] else [])
    ++ (if !(p.any isSpecialChar) then
          ["Password must contain at least one special character"] else [])
    ++ (if COMMON_PASSWORDS.contains (String.mk lower) then
          ["Password is too common"] else [])
    ++ (match email with
        | none => []
        | some e =>
          let username := (((e.splitOn "@").headD "").toList).map Char.toLower
          if !username.isEmpty && containsSub username lower then
            ["Password cannot contain your email username"] else [])
    ++ (if hasTripleRepeat p then
          ["Password cannot contain three or more repeated characters"] else [])
    ++ (if seqNumberTriples.any (fun t => containsSub t.toList p) then
          ["Password cannot contain sequential numbers"] else [])
    ++ (if seqLetterTriples.any (fun t => containsSub t.toList lower) then
          ["Password cannot contain sequential letters"] else [])
  { valid := errors.isEmpty, errors := errors }

/-- The four alphabets of `generateSecurePassword` and their union. -/
def lowercaseChars : List Char := "abcdefghijklmnopqrstuvwxyz".toList

def uppercaseChars : List Char := "ABCDEFGHIJKLMNOPQRSTUVWXYZ".toList

def numberChars : List Char := "0123456789".toList

/-- `'!@#$%^&*()_+-=[]{}|;:,.<>?'` (codes 123/125 are the braces). -/
def symbolChars : List Char :=
  ['!', '@', '#', '$', '%', '^', '&', '*', '(', ')', '_', '+', '-', '=',
   '[', ']', Char.ofNat 123, Char.ofNat 125, '|', ';', ':', ',', '.', '<',
   '>', '?']

def allChars : List Char :=
  lowercaseChars ++ uppercaseChars ++ numberChars ++ symbolChars

/-- The random choices one call of `generateSecurePassword` consumes: one
index per required class, one per fill position, and the permutation the
final `sort(() => Math.random() - 0.5)` applies (a comparison-sort always
emits some permutation of its input). -/
structure Rand where
  low : Nat
  up : Nat
  dig : Nat
  sym : Nat
  fill : Nat → Nat
  shuffle : List Nat

/-- `alphabet[Math.floor(Math.random() * alphabet.length)]`: the random
draw always lies in `[0, length)`, modelled by reducing the supplied index
modulo the alphabet size (the default is unreachable). -/
def pickChar (alphabet : List Char) (r : Nat) : Char :=
  alphabet.getD (r % alphabet.length) ' '

/-- `generateSecurePassword(length = 16)`: seed one character of each
required class, fill positions 4..length-1 from the union alphabet, then
apply the shuffle permutation. For `length ≤ 4` the fill loop body never
runs. -/
def generateSecurePassword (rand : Rand) (length : Int) : List Char :=
  let base := [pickChar lowercaseChars rand.low, pickChar uppercaseChars rand.up,
               pickChar numberChars rand.dig, pickChar symbolChars rand.sym]
  let filled := base
    ++ (List.range (length - 4).toNat).map (fun i => pickChar allChars (rand.fill i))
  rand.shuffle.map (fun idx => filled.getD idx ' ')

/-! ## Theorems -/

/-! ### Claims C1 and C7 -/

/-- C1: on the public content endpoint the three failure cases — well-formed
slug matching no site, right slug with wrong API key, right slug+key with an
unpublished site — all produce the very same error value, hence identical
status 404 and identical error body. -/
theorem publicGate_antiEnumeration (sites : List Site) (key slug : String)
    (hslug : slugMalformed slug = false)
    (hcase :
      (∀ s ∈ sites, s.slug ≠ slug) ∨
      (∀ s ∈ sites, s.slug = slug → s.api_key ≠ key) ∨
      (∃ site, singleMatch sites (fun s => s.slug == slug && s.api_key == key)
          = some site ∧ site.status ≠ "published")) :
    getContent sites (some key) slug false
        = .err (NotFoundError "Site not found or invalid API key")
    ∧ errorResponse (NotFoundError "Site not found or invalid API key")
        = (404, "Site not found or invalid API key") := by
  refine ⟨?_, rfl⟩
  have hfilter :
      (∀ s ∈ sites, s.slug = slug → s.api_key ≠ key) →
      sites.filter (fun s => s.slug == slug && s.api_key == key) = [] := by
    intro h
    rw [List.filter_eq_nil_iff]
    intro s hs hp
    simp only [Bool.and_eq_true, beq_iff_eq] at hp
    exact h s hs hp.1 hp.2
  unfold getContent
  simp only [hslug, if_neg, Bool.false_eq_true, not_false_eq_true, if_false]
  rcases hcase with h1 | h2 | ⟨site, hsm, hst⟩
  · have : sites.filter (fun s => s.slug == slug && s.api_key == key) = [] :=
      hfilter (fun s hs heq _ => h1 s hs heq)
    simp [singleMatch, this]
  · have : sites.filter (fun s => s.slug == slug && s.api_key == key) = [] :=
      hfilter h2
    simp [singleMatch, this]
  · rw [hsm]
    simp only []
    have : (site.status != "published") = true := by
      simpa using hst
    simp [this]

/-- Witness for C1 at a concrete input (case: no site carries the slug). -/
theorem publicGate_antiEnumeration_witness :
    getContent [] (some "k1") "joes-pizza" false
        = .err (NotFoundError "Site not found or invalid API key") :=
  (publicGate_antiEnumeration [] "k1" "joes-pizza" (by decide)
    (Or.inl (by intro s hs; cases hs))).1

/-- Counterexample to C7 as stated: a request carrying an API key whose slug
`"A"` is malformed receives status 400 (ValidationError), not 401. -/
theorem publicGate_malformedSlug_cex :
    getContent [] (some "key1") "A" false
        = .err (ValidationError "Invalid site identifier")
    ∧ (ValidationError "Invalid site identifier").statusCode = 400
    ∧ (ValidationError "Invalid site identifier").statusCode ≠ 401 := by
  refine ⟨?_, rfl, by decide⟩
  rfl

/-- C7 (amended): a request carrying an API key with a malformed slug
receives status 400 (a ValidationError), a different status than the 401 of
a missing API key, and its body is the uniform error shape. -/
theorem publicGate_malformedSlug (sites : List Site) (key slug : String)
    (hslug : slugMalformed slug = true) :
    getContent sites (some key) slug false
        = .err (ValidationError "Invalid site identifier")
    ∧ errorResponse (ValidationError "Invalid site identifier")
        = (400, "Invalid site identifier")
    ∧ (ValidationError "Invalid site identifier").statusCode ≠ 401 := by
  refine ⟨?_, rfl, by decide⟩
  unfold getContent
  simp [hslug]

/-- Witness for the amended C7 at the concrete malformed slug `"A"`. -/
theorem publicGate_malformedSlug_witness :
    getContent [] (some "key2") "A" false
        = .err (ValidationError "Invalid site identifier") :=
  (publicGate_malformedSlug [] "key2" "A" (by decide)).1

/-- Inversion for the `.single()` model: a successful lookup means the
filter keeps exactly one row. -/
theorem singleMatch_eq_some_iff {α : Type} (rows : List α) (p : α → Bool)
    (a : α) : singleMatch rows p = some a ↔ rows.filter p = [a] := by
  unfold singleMatch
  rcases h : rows.filter p with _ | ⟨x, rest⟩
  · simp
  · rcases rest with _ | ⟨y, ys⟩ <;> simp

/-- C2: rotating a clear token whose stored record is valid succeeds, marks
the old record revoked, and returns a new token for the same principal id
and kind; a second rotation of the same clear token after the first
completed returns the invalid result. -/
theorem rotateRefreshToken_at_most_once
    (hash : String → String) (store : List TokenRecord)
    (t s1 s2 : String) (id1 id2 now1 now2 : Nat) (r : TokenRecord)
    (hfind : findByHash store (hash t) = some r)
    (hrev : r.revoked_at = none)
    (hexp : ¬ r.expires_at < now1) :
    (rotateRefreshToken hash store id1 s1 t now1).2
        = some ⟨s1, now1 + REFRESH_TOKEN_EXPIRY * 1000, r.user_id, r.user_type⟩
    ∧ (∃ rec ∈ (rotateRefreshToken hash store id1 s1 t now1).1,
          rec.id = r.id ∧ rec.token_hash = r.token_hash
          ∧ rec.revoked_at = some now1)
    ∧ (rotateRefreshToken hash
        (rotateRefreshToken hash store id1 s1 t now1).1 id2 s2 t now2).2
        = none := by
  have hfil : store.filter (fun rec => rec.token_hash == hash t) = [r] :=
    (singleMatch_eq_some_iff store _ r).1 hfind
  have hmem : r ∈ store :=
    (List.mem_filter.mp (by rw [hfil]; exact List.mem_singleton_self r)).1
  have heq : rotateRefreshToken hash store id1 s1 t now1
      = (revokeById store r.id now1
          ++ [⟨id1, r.user_id, r.user_type, hash s1,
                now1 + REFRESH_TOKEN_EXPIRY * 1000, none⟩],
         some ⟨s1, now1 + REFRESH_TOKEN_EXPIRY * 1000, r.user_id, r.user_type⟩) := by
    unfold rotateRefreshToken createRefreshToken
    rw [hfind]
    simp [hrev, hexp]
  have hrevoked_r :
      ((if r.id == r.id then { r with revoked_at := some now1 } else r)
        : TokenRecord) = { r with revoked_at := some now1 } := by
    simp
  have h1 : (revokeById store r.id now1).filter
      (fun rec => rec.token_hash == hash t)
      = [{ r with revoked_at := some now1 }] := by
    unfold revokeById
    rw [List.filter_map]
    have hp : ((fun (rec : TokenRecord) => rec.token_hash == hash t) ∘
        (fun (u : TokenRecord) =>
          if u.id == r.id then { u with revoked_at := some now1 } else u))
        = (fun (rec : TokenRecord) => rec.token_hash == hash t) := by
      funext u
      by_cases hu : u.id == r.id <;> simp [Function.comp, hu]
    rw [hp, hfil, List.map_singleton, hrevoked_r]
  refine ⟨by rw [heq], ?_, ?_⟩
  · refine ⟨{ r with revoked_at := some now1 }, ?_, rfl, rfl, rfl⟩
    rw [heq]
    refine List.mem_append_left _ ?_
    unfold revokeById
    exact List.mem_map.mpr ⟨r, hmem, by simp⟩
  · rw [heq]
    have h2 : (revokeById store r.id now1
        ++ [({ id := id1, user_id := r.user_id, user_type := r.user_type,
               token_hash := hash s1,
               expires_at := now1 + REFRESH_TOKEN_EXPIRY * 1000,
               revoked_at := none } : TokenRecord)]).filter
        (fun rec => rec.token_hash == hash t)
        = [{ r with revoked_at := some now1 }]
          ++ (if (hash s1 == hash t) then
                [({ id := id1, user_id := r.user_id, user_type := r.user_type,
                    token_hash := hash s1,
                    expires_at := now1 + REFRESH_TOKEN_EXPIRY * 1000,
                    revoked_at := none } : TokenRecord)]
              else []) := by
      rw [List.filter_append, h1]
      congr 1
      simp [List.filter_cons]
    by_cases hc : (hash s1 == hash t) = true
    · rw [hc] at h2
      simp only [if_true, List.singleton_append] at h2
      unfold rotateRefreshToken findByHash singleMatch
      rw [h2]
    · rw [Bool.not_eq_true] at hc
      rw [hc] at h2
      simp only [Bool.false_eq_true, if_false, List.append_nil] at h2
      unfold rotateRefreshToken findByHash singleMatch
      rw [h2]
      simp

/-- Witness for C2 at a concrete store: one valid record for principal
`"u1"`, rotated twice with the identity as the hash oracle. -/
theorem rotateRefreshToken_at_most_once_witness :
    (rotateRefreshToken (fun s => s)
        [⟨0, "u1", "client", "tok", 5000, none⟩] 1 "s1" "tok" 100).2
      = some ⟨"s1", 100 + REFRESH_TOKEN_EXPIRY * 1000, "u1", "client"⟩ :=
  (rotateRefreshToken_at_most_once (fun s => s)
      [⟨0, "u1", "client", "tok", 5000, none⟩]
      "tok" "s1" "s2" 1 2 100 200 ⟨0, "u1", "client", "tok", 5000, none⟩
      (by decide) rfl (by decide)).1

/-- State after at most four consecutive failures starting below the
threshold: the counter advances by the number of attempts, no lockout is
set, and the other columns are untouched. -/
theorem failedLogins_below_threshold (c : Client) (nows : List Nat)
    (h : c.failed_login_attempts + nows.length ≤ 4) :
    (failedLogins c nows).failed_login_attempts
        = c.failed_login_attempts + nows.length
    ∧ (nows = [] → failedLogins c nows = c)
    ∧ (nows ≠ [] → (failedLogins c nows).locked_until = none)
    ∧ (failedLogins c nows).is_active = c.is_active
    ∧ (failedLogins c nows).id = c.id := by
  induction nows generalizing c with
  | nil => exact ⟨rfl, fun _ => rfl, fun hne => absurd rfl hne, rfl, rfl⟩
  | cons now rest ih =>
    simp only [List.length_cons] at h
    have hstep : (loginClient c false now).1
        = { c with failed_login_attempts := c.failed_login_attempts + 1,
                   locked_until := none } := by
      have h5 : ¬ c.failed_login_attempts + 1 ≥ 5 := by omega
      simp [loginClient, incrementFailedLoginAttempts, h5]
    have harith : ({ c with
        failed_login_attempts := c.failed_login_attempts + 1,
        locked_until := none } : Client).failed_login_attempts + rest.length ≤ 4 := by
      simp only []
      omega
    have ihspec := ih ({ c with
        failed_login_attempts := c.failed_login_attempts + 1,
        locked_until := none }) harith
    have hunfold : failedLogins c (now :: rest)
        = failedLogins ({ c with
            failed_login_attempts := c.failed_login_attempts + 1,
            locked_until := none }) rest := by
      simp only [failedLogins, List.foldl_cons, hstep]
    refine ⟨?_, ?_, fun _ => ?_, ?_, ?_⟩
    · rw [hunfold, ihspec.1]
      simp only [List.length_cons]
      omega
    · intro hne
      exact absurd hne (List.cons_ne_nil now rest)
    · rcases Decidable.em (rest = []) with hr | hr
      · rw [hunfold, ihspec.2.1 hr]
      · rw [hunfold]; exact ihspec.2.2.1 hr
    · rw [hunfold, ihspec.2.2.2.1]
    · rw [hunfold, ihspec.2.2.2.2]

/-- C3: starting from a client with counter 0 and no lockout, every failed
login increments the counter by one and returns the 401 outcome; up to four
consecutive failures leave no lockout; exactly the fifth sets
`locked_until` fifteen minutes past that attempt; while `locked_until` lies
in the future even a correct-credential login is Forbidden and changes
nothing; and a successful login resets the counter and clears the lock. -/
theorem clientLockout (c0 : Client) (nows : List Nat) (n5 : Nat)
    (h0 : c0.failed_login_attempts = 0)
    (hl0 : c0.locked_until = none)
    (_hact : c0.is_active = true)
    (hlen : nows.length ≤ 4) :
    (∀ (c : Client) (now : Nat),
        (loginClient c false now).1.failed_login_attempts
            = c.failed_login_attempts + 1
        ∧ (loginClient c false now).2 = .unauthorized)
    ∧ ((failedLogins c0 nows).failed_login_attempts = nows.length
        ∧ (failedLogins c0 nows).locked_until = none)
    ∧ (nows.length = 4 →
        (loginClient (failedLogins c0 nows) false n5).1.failed_login_attempts = 5
        ∧ (loginClient (failedLogins c0 nows) false n5).1.locked_until
            = some (n5 + 15 * 60 * 1000))
    ∧ (∀ (c : Client) (lu now : Nat), c.is_active = true →
        c.locked_until = some lu → now < lu →
        loginClient c true now = (c, .forbiddenLocked))
    ∧ (∀ (c : Client) (now : Nat), c.is_active = true →
        c.locked_until = none →
        (loginClient c true now).1.failed_login_attempts = 0
        ∧ (loginClient c true now).1.locked_until = none
        ∧ (loginClient c true now).2 = .success) := by
  have hrun := failedLogins_below_threshold c0 nows (by omega)
  refine ⟨?_, ⟨by rw [hrun.1, h0]; omega, ?_⟩, ?_, ?_, ?_⟩
  · intro c now
    exact ⟨by simp [loginClient, incrementFailedLoginAttempts],
           by simp [loginClient]⟩
  · rcases Decidable.em (nows = []) with hr | hr
    · rw [hrun.2.1 hr, hl0]
    · exact hrun.2.2.1 hr
  · intro h4
    have hc4 : (failedLogins c0 nows).failed_login_attempts = 4 := by
      rw [hrun.1, h0, h4]
    have h5 : (failedLogins c0 nows).failed_login_attempts + 1 ≥ 5 := by omega
    constructor
    · simp [loginClient, incrementFailedLoginAttempts, hc4]
    · simp [loginClient, incrementFailedLoginAttempts, h5]
  · intro c lu now hactive hlock hfut
    simp [loginClient, hactive, hlock, hfut]
  · intro c now hactive hlock
    refine ⟨?_, ?_, ?_⟩ <;>
      simp [loginClient, resetFailedLoginAttempts, hactive, hlock]

/-- Witness for C3: after four failed attempts the counter is 4 with no
lock, and the fifth failed attempt at time 10 locks until `10 + 900000`. -/
theorem clientLockout_witness :
    (loginClient
        (failedLogins ⟨"c1", "e", "n", true, 0, none⟩ [1, 2, 3, 4]) false 10).1.locked_until
      = some (10 + 15 * 60 * 1000) :=
  ((clientLockout ⟨"c1", "e", "n", true, 0, none⟩ [1, 2, 3, 4] 10
      rfl rfl rfl (by decide)).2.2.1 rfl).2

/-- C4: a client delete of a collection item goes through only when both
the site-level `can_delete_collection_items` flag and the collection's own
`can_delete` flag are true; either flag being false yields Forbidden with
the item table untouched; and with no `site_permissions` row at all the
all-false default likewise forbids the delete. -/
theorem deleteItem_requires_both_flags (permRows : List SitePermissions)
    (colls : List Collection) (items : List CollectionItem)
    (siteId key itemId : String) :
    ((deleteItemEndpoint permRows colls items siteId key itemId).2 = none →
      (getSitePermissions permRows siteId).can_delete_collection_items = true
      ∧ ∃ c, getCollectionByKey colls siteId key = some c ∧ c.can_delete = true)
    ∧ ((getSitePermissions permRows siteId).can_delete_collection_items = false →
        deleteItemEndpoint permRows colls items siteId key itemId
          = (items, some (ForbiddenError
              "You do not have permission to delete collection items")))
    ∧ (∀ c, getCollectionByKey colls siteId key = some c →
        c.can_delete = false →
        (getSitePermissions permRows siteId).can_delete_collection_items = true →
        deleteItemEndpoint permRows colls items siteId key itemId
          = (items, some (ForbiddenError
              "Deleting items from this collection is not allowed")))
    ∧ ((∀ r ∈ permRows, r.site_id ≠ siteId) →
        deleteItemEndpoint permRows colls items siteId key itemId
          = (items, some (ForbiddenError
              "You do not have permission to delete collection items"))) := by
  have hdefault : (∀ r ∈ permRows, r.site_id ≠ siteId) →
      getSitePermissions permRows siteId = defaultSitePermissions siteId := by
    intro h
    have hfil : permRows.filter (fun r => r.site_id == siteId) = [] := by
      rw [List.filter_eq_nil_iff]
      intro r hr hp
      exact h r hr (by simpa using hp)
    simp [getSitePermissions, singleMatch, hfil]
  refine ⟨?_, ?_, ?_, ?_⟩
  · intro hdel
    by_cases hflag :
        (getSitePermissions permRows siteId).can_delete_collection_items = true
    · refine ⟨hflag, ?_⟩
      rcases hcoll : getCollectionByKey colls siteId key with _ | c
      · simp [deleteItemEndpoint, hflag, hcoll] at hdel
      · refine ⟨c, rfl, ?_⟩
        by_cases hcd : c.can_delete = true
        · exact hcd
        · rw [Bool.not_eq_true] at hcd
          simp [deleteItemEndpoint, hflag, hcoll, hcd] at hdel
    · rw [Bool.not_eq_true] at hflag
      simp [deleteItemEndpoint, hflag] at hdel
  · intro hflag
    simp [deleteItemEndpoint, hflag]
  · intro c hcoll hcd hflag
    simp [deleteItemEndpoint, hflag, hcoll, hcd]
  · intro hnone
    have := hdefault hnone
    simp [deleteItemEndpoint, this, defaultSitePermissions]

/-- Witness for C4: a site whose permissions row allows deletion but whose
collection forbids it is refused with the table unchanged. -/
theorem deleteItem_requires_both_flags_witness :
    deleteItemEndpoint
        [⟨"p1", "s1", false, false, false, false, false, true, false, false⟩]
        [⟨"col1", "s1", "team", true, false, true, none⟩]
        [⟨"item1", "col1", 0, true⟩]
        "s1" "team" "item1"
      = ([⟨"item1", "col1", 0, true⟩],
         some (ForbiddenError "Deleting items from this collection is not allowed")) :=
  (deleteItem_requires_both_flags
      [⟨"p1", "s1", false, false, false, false, false, true, false, false⟩]
      [⟨"col1", "s1", "team", true, false, true, none⟩]
      [⟨"item1", "col1", 0, true⟩]
      "s1" "team" "item1").2.2.1
    ⟨"col1", "s1", "team", true, false, true, none⟩ (by decide) rfl (by decide)

/-- The sequential whole-table update loop acts row-wise. -/
theorem applyReorderUpdates_map (items : List CollectionItem)
    (updates : List (String × Nat)) :
    applyReorderUpdates items updates
      = items.map (fun i => updates.foldl (fun j u => applyOne u j) i) := by
  induction updates generalizing items with
  | nil => simp [applyReorderUpdates]
  | cons u us ih =>
    simp only [applyReorderUpdates, List.foldl_cons] at *
    rw [ih (items.map (applyOne u)), List.map_map]
    rfl

/-- Reorder updates never change a row's id. -/
theorem foldl_applyOne_id (i : CollectionItem)
    (updates : List (String × Nat)) :
    (updates.foldl (fun j u => applyOne u j) i).id = i.id := by
  induction updates generalizing i with
  | nil => rfl
  | cons u us ih =>
    rw [List.foldl_cons, ih]
    by_cases h : i.id == u.1 <;> simp [applyOne, h]

/-- A row none of the updates target is left untouched. -/
theorem foldl_applyOne_untouched (i : CollectionItem)
    (updates : List (String × Nat))
    (h : ∀ u ∈ updates, u.1 ≠ i.id) :
    updates.foldl (fun j u => applyOne u j) i = i := by
  induction updates generalizing i with
  | nil => rfl
  | cons u us ih =>
    rw [List.foldl_cons]
    have hu : applyOne u i = i := by
      have hne := h u (List.mem_cons_self u us)
      have : (i.id == u.1) = false := by
        simpa using fun hc => hne hc.symm
      simp [applyOne, this]
    rw [hu]
    exact ih i (fun v hv => h v (List.mem_cons_of_mem _ hv))

/-- When exactly one update targets a row, the row ends with that update's
sort position. -/
theorem foldl_applyOne_unique (i : CollectionItem)
    (updates : List (String × Nat)) (k : Nat)
    (h : updates.filter (fun u => u.1 == i.id) = [(i.id, k)]) :
    (updates.foldl (fun j u => applyOne u j) i).sort_order = k := by
  induction updates generalizing i with
  | nil => simp at h
  | cons u us ih =>
    rw [List.foldl_cons]
    simp only [List.filter_cons] at h
    by_cases hm : (u.1 == i.id) = true
    · rw [if_pos hm] at h
      have hu : u = (i.id, k) := (List.cons_eq_cons.mp h).1
      have hrest : us.filter (fun v => v.1 == i.id) = [] :=
        (List.cons_eq_cons.mp h).2
      have happ : applyOne u i = { i with sort_order := k } := by
        subst hu
        simp [applyOne]
      rw [happ]
      have hnone : ∀ v ∈ us,
          v.1 ≠ ({ i with sort_order := k } : CollectionItem).id := by
        intro v hv
        have := List.filter_eq_nil_iff.mp hrest v hv
        simpa using this
      rw [foldl_applyOne_untouched _ _ hnone]
    · rw [if_neg hm] at h
      have hu : applyOne u i = i := by
        have hba : (i.id == u.1) = false := by
          rcases Bool.eq_false_or_eq_true (i.id == u.1) with hb | hb
          · exact absurd (by rw [beq_iff_eq] at hb ⊢; exact hb.symm) hm
          · exact hb
        simp [applyOne, hba]
      rw [hu]
      exact ih i h

/-- The first component of every generated update is one of the supplied
ids. -/
theorem mkReorderUpdatesFrom_fst_mem (base : Nat) (ids : List String)
    (u : String × Nat) (h : u ∈ mkReorderUpdatesFrom base ids) : u.1 ∈ ids := by
  induction ids generalizing base with
  | nil => simp [mkReorderUpdatesFrom] at h
  | cons id rest ih =>
    rw [mkReorderUpdatesFrom] at h
    rcases List.mem_cons.mp h with hh | hh
    · subst hh; exact List.mem_cons_self _ _
    · exact List.mem_cons_of_mem _ (ih (base + 1) hh)

/-- With distinct supplied ids, exactly one update targets the id at
position `k`, carrying sort position `base + k`. -/
theorem mkReorderUpdatesFrom_filter (base : Nat) (ids : List String)
    (hnd : ids.Nodup) (k : Nat) (hk : k < ids.length) :
    (mkReorderUpdatesFrom base ids).filter
        (fun u => u.1 == ids.get ⟨k, hk⟩)
      = [(ids.get ⟨k, hk⟩, base + k)] := by
  induction ids generalizing base k with
  | nil => exact absurd hk (by simp)
  | cons id rest ih =>
    have hnotmem : id ∉ rest := (List.nodup_cons.mp hnd).1
    have hndrest : rest.Nodup := (List.nodup_cons.mp hnd).2
    cases k with
    | zero =>
      have hget : (id :: rest).get ⟨0, hk⟩ = id := rfl
      rw [mkReorderUpdatesFrom, hget]
      simp only [List.filter_cons, beq_self_eq_true, if_true]
      have hrest : (mkReorderUpdatesFrom (base + 1) rest).filter
          (fun u => u.1 == id) = [] := by
        rw [List.filter_eq_nil_iff]
        intro u hu hp
        rw [beq_iff_eq] at hp
        exact hnotmem (hp ▸ mkReorderUpdatesFrom_fst_mem (base + 1) rest u hu)
      rw [hrest]
      simp
    | succ k' =>
      have hk' : k' < rest.length := by
        simpa using Nat.lt_of_succ_lt_succ (by simpa using hk)
      have hget : (id :: rest).get ⟨k' + 1, hk⟩ = rest.get ⟨k', hk'⟩ := rfl
      rw [mkReorderUpdatesFrom, hget]
      have hne : (id == rest.get ⟨k', hk'⟩) = false := by
        rcases Bool.eq_false_or_eq_true (id == rest.get ⟨k', hk'⟩) with hb | hb
        · rw [beq_iff_eq] at hb
          exact absurd (hb ▸ rest.get_mem k' hk') hnotmem
        · exact hb
      simp only [List.filter_cons, hne, Bool.false_eq_true, if_false]
      rw [ih (base + 1) hndrest k' hk']
      have harith : base + 1 + k' = base + (k' + 1) := by omega
      rw [harith]

/-- Core facts about a reorder call whose supplied ids all belong to the
collection: it succeeds, the resulting table is the row-wise update of the
old one, each listed id ends at its list position, and unlisted rows are
unchanged. -/
theorem reorder_success_core (items : List CollectionItem)
    (collectionId : String) (itemIds : List String)
    (hnd : itemIds.Nodup)
    (hsub : ∀ id ∈ itemIds,
      id ∈ (items.filter (fun i => i.collection_id == collectionId)).map
            (fun i => i.id)) :
    (reorderCollectionItems items collectionId itemIds).2 = none
    ∧ (reorderCollectionItems items collectionId itemIds).1
        = items.map (fun i =>
            (mkReorderUpdatesFrom 0 itemIds).foldl (fun j u => applyOne u j) i)
    ∧ (∀ (k : Nat) (hk : k < itemIds.length) (i : CollectionItem),
        i ∈ (reorderCollectionItems items collectionId itemIds).1 →
        i.id = itemIds.get ⟨k, hk⟩ → i.sort_order = k)
    ∧ (∀ i ∈ items, i.id ∉ itemIds →
        i ∈ (reorderCollectionItems items collectionId itemIds).1) := by
  have hfind : itemIds.find? (fun id =>
      !((items.filter (fun i => i.collection_id == collectionId)).map
          (fun i => i.id)).contains id) = none := by
    rw [List.find?_eq_none]
    intro id hid
    have := hsub id hid
    simp [List.elem_iff, this]
  have heq : reorderCollectionItems items collectionId itemIds
      = (applyReorderUpdates items (mkReorderUpdatesFrom 0 itemIds), none) := by
    unfold reorderCollectionItems
    simp only [hfind]
  have hmap : (reorderCollectionItems items collectionId itemIds).1
      = items.map (fun i =>
          (mkReorderUpdatesFrom 0 itemIds).foldl (fun j u => applyOne u j) i) := by
    rw [heq, applyReorderUpdates_map]
  refine ⟨by rw [heq], hmap, ?_, ?_⟩
  · intro k hk i hi hid
    rw [hmap] at hi
    rcases List.mem_map.mp hi with ⟨i0, hi0, hfold⟩
    have hid0 : i0.id = itemIds.get ⟨k, hk⟩ := by
      rw [← hid, ← hfold, foldl_applyOne_id]
    have hfil := mkReorderUpdatesFrom_filter 0 itemIds hnd k hk
    rw [← hid0] at hfil
    have := foldl_applyOne_unique i0 (mkReorderUpdatesFrom 0 itemIds) (0 + k)
      (by rw [hfil])
    rw [← hfold]
    simpa using this
  · intro i hi hnotin
    rw [hmap]
    have hfold : (mkReorderUpdatesFrom 0 itemIds).foldl
        (fun j u => applyOne u j) i = i := by
      refine foldl_applyOne_untouched i _ ?_
      intro u hu hfst
      exact hnotin (hfst ▸ mkReorderUpdatesFrom_fst_mem 0 itemIds u hu)
    exact List.mem_map.mpr ⟨i, hi, hfold⟩

/-- C5: a reorder whose supplied ids all belong to the collection succeeds
and assigns sort positions 0..n-1 in the caller-supplied order; a reorder
containing an id that does not belong is rejected with a validation error
and leaves the item table unchanged. -/
theorem reorderCollectionItems_spec (items : List CollectionItem)
    (collectionId : String) (itemIds : List String) (hnd : itemIds.Nodup) :
    ((∃ id ∈ itemIds,
        id ∉ (items.filter (fun i => i.collection_id == collectionId)).map
              (fun i => i.id)) →
      ∃ badId, reorderCollectionItems items collectionId itemIds
        = (items, some (ValidationError
            ("Item " ++ badId ++ " does not belong to this collection"))))
    ∧ ((∀ id ∈ itemIds,
          id ∈ (items.filter (fun i => i.collection_id == collectionId)).map
                (fun i => i.id)) →
        (reorderCollectionItems items collectionId itemIds).2 = none
        ∧ ∀ (k : Nat) (hk : k < itemIds.length) (i : CollectionItem),
            i ∈ (reorderCollectionItems items collectionId itemIds).1 →
            i.id = itemIds.get ⟨k, hk⟩ → i.sort_order = k) := by
  constructor
  · rintro ⟨id, hid, hnotin⟩
    have hexists : ∃ b, itemIds.find? (fun id =>
        !((items.filter (fun i => i.collection_id == collectionId)).map
            (fun i => i.id)).contains id) = some b := by
      rcases hfind : itemIds.find? (fun id =>
          !((items.filter (fun i => i.collection_id == collectionId)).map
              (fun i => i.id)).contains id) with _ | b
      · have hcontains := List.find?_eq_none.mp hfind id hid
        have hc : ((items.filter (fun i => i.collection_id == collectionId)).map
            (fun i => i.id)).contains id = true := by
          rcases Bool.eq_false_or_eq_true
              (((items.filter (fun i => i.collection_id == collectionId)).map
                (fun i => i.id)).contains id) with hb | hb
          · exact hb
          · exact absurd (by rw [hb]; rfl) hcontains
        exact absurd (List.elem_iff.mp hc) hnotin
      · exact ⟨b, hfind⟩
    rcases hexists with ⟨badId, hfind⟩
    refine ⟨badId, ?_⟩
    unfold reorderCollectionItems
    simp only [hfind]
  · intro hsub
    have core := reorder_success_core items collectionId itemIds hnd hsub
    exact ⟨core.1, core.2.2.1⟩

/-- Witness for C5: submitting `[b, a, c]` for a three-item collection
yields sort positions 0, 1, 2 for b, a, c. -/
theorem reorderCollectionItems_spec_witness :
    (reorderCollectionItems
        [⟨"a", "col", 0, true⟩, ⟨"b", "col", 1, true⟩, ⟨"c", "col", 2, true⟩]
        "col" ["b", "a", "c"]).2 = none
    ∧ (reorderCollectionItems
        [⟨"a", "col", 0, true⟩, ⟨"b", "col", 1, true⟩, ⟨"c", "col", 2, true⟩]
        "col" ["b", "a", "c"]).1
      = [⟨"a", "col", 1, true⟩, ⟨"b", "col", 0, true⟩, ⟨"c", "col", 2, true⟩] :=
  ⟨((reorderCollectionItems_spec
      [⟨"a", "col", 0, true⟩, ⟨"b", "col", 1, true⟩, ⟨"c", "col", 2, true⟩]
      "col" ["b", "a", "c"] (by decide)).2 (by decide)).1,
   by decide⟩

/-- C9: a reorder whose supplied ids are a strict subset of the collection
still succeeds — the listed rows get positions 0..k-1 while unlisted rows
keep their previous sort positions — so two rows of one collection can end
at the same position. -/
theorem reorderCollectionItems_subset (items : List CollectionItem)
    (collectionId : String) (itemIds : List String) (hnd : itemIds.Nodup)
    (hsub : ∀ id ∈ itemIds,
      id ∈ (items.filter (fun i => i.collection_id == collectionId)).map
            (fun i => i.id)) :
    (reorderCollectionItems items collectionId itemIds).2 = none
    ∧ (∀ (k : Nat) (hk : k < itemIds.length) (i : CollectionItem),
        i ∈ (reorderCollectionItems items collectionId itemIds).1 →
        i.id = itemIds.get ⟨k, hk⟩ → i.sort_order = k)
    ∧ (∀ i ∈ items, i.id ∉ itemIds →
        i ∈ (reorderCollectionItems items collectionId itemIds).1) := by
  have core := reorder_success_core items collectionId itemIds hnd hsub
  exact ⟨core.1, core.2.2.1, core.2.2.2⟩

/-- Witness for C9: reordering only `[b]` in a two-item collection leaves
`a` at position 0 and moves `b` to position 0 as well — a duplicated sort
position. -/
theorem reorderCollectionItems_subset_witness :
    (reorderCollectionItems
        [⟨"a", "col", 0, true⟩, ⟨"b", "col", 1, true⟩] "col" ["b"]).2 = none
    ∧ (reorderCollectionItems
        [⟨"a", "col", 0, true⟩, ⟨"b", "col", 1, true⟩] "col" ["b"]).1
      = [⟨"a", "col", 0, true⟩, ⟨"b", "col", 0, true⟩] :=
  ⟨(reorderCollectionItems_subset
      [⟨"a", "col", 0, true⟩, ⟨"b", "col", 1, true⟩] "col" ["b"]
      (by decide) (by decide)).1,
   by decide⟩

/-- Counterexample to C6 as stated: re-publishing an already-published site
(`published_at = some 100`) at time 200 overwrites `published_at` with
`some 200` instead of leaving the recorded value unchanged. -/
theorem updateSite_republish_cex :
    updateSite [⟨"s1", "Joes", "joes-pizza", "published", "k", none, some 100⟩]
        "s1" ⟨none, none, some "published"⟩ 200
      = .ok ([⟨"s1", "Joes", "joes-pizza", "published", "k", none, some 200⟩],
             ⟨"s1", "Joes", "joes-pizza", "published", "k", none, some 200⟩)
    ∧ (some 200 : Option Nat) ≠ some 100 := by
  exact ⟨rfl, by decide⟩

/-- C6 (amended): every successful `updateSite` whose requested status is
`'published'` — including a re-publish of an already-published site — sets
`published_at` to the time of that update, overwriting any previous value;
an update not requesting status `'published'` leaves `published_at` at the
stored row's value. -/
theorem updateSite_published_at (sites : List Site) (id : String)
    (input : UpdateSiteRequest) (now : Nat) (sites' : List Site) (s' : Site)
    (hok : updateSite sites id input now = .ok (sites', s')) :
    (input.status = some "published" → s'.published_at = some now)
    ∧ (input.status ≠ some "published" →
        ∃ s, singleMatch sites (fun t => t.id == id) = some s
          ∧ s'.published_at = s.published_at) := by
  unfold updateSite at hok
  by_cases hslug : (match input.slug with
      | some slg => sites.any (fun t => t.slug == slg && t.id != id)
      | none => false) = true
  · rw [if_pos hslug] at hok
    cases hok
  · rw [if_neg hslug] at hok
    rcases hfind : singleMatch sites (fun s => s.id == id) with _ | s
    · rw [hfind] at hok
      cases hok
    · rw [hfind] at hok
      have hs' : s' = applySiteUpdate s input now := by
        cases hok
        rfl
      constructor
      · intro hpub
        rw [hs']
        unfold applySiteUpdate
        rw [if_pos (by rw [hpub]; rfl)]
      · intro hnpub
        refine ⟨s, rfl, ?_⟩
        rw [hs']
        unfold applySiteUpdate
        rw [if_neg (by simpa using hnpub)]

/-- Witness for the amended C6: publishing a draft site at time 300 stamps
`published_at = some 300`. -/
theorem updateSite_published_at_witness :
    (⟨"s2", "Cafe", "cafe", "published", "k2", none, some 300⟩ : Site).published_at
      = some 300 :=
  (updateSite_published_at
      [⟨"s2", "Cafe", "cafe", "draft", "k2", none, none⟩] "s2"
      ⟨none, none, some "published"⟩ 300
      [⟨"s2", "Cafe", "cafe", "published", "k2", none, some 300⟩]
      ⟨"s2", "Cafe", "cafe", "published", "k2", none, some 300⟩
      (by rfl)).1 rfl

/-- Indexing a list by all its positions in order reproduces the list. -/
theorem map_getD_range (l : List Char) (d : Char) :
    (List.range l.length).map (fun i => l.getD i d) = l := by
  induction l with
  | nil => simp
  | cons a t ih =>
    simp only [List.length_cons, List.range_succ_eq_map, List.map_cons,
      List.map_map]
    refine congrArg (a :: ·) ?_
    calc (List.range t.length).map ((fun i => (a :: t).getD i d) ∘ Nat.succ)
        = (List.range t.length).map (fun i => t.getD i d) :=
          List.map_congr_left (fun i _ => rfl)
      _ = t := ih

/-- Applying a permutation of all positions permutes the list. -/
theorem shuffle_perm_of_range (σ : List Nat) (l : List Char) (d : Char)
    (h : σ.Perm (List.range l.length)) :
    (σ.map (fun i => l.getD i d)).Perm l := by
  have hm := h.map (fun i => l.getD i d)
  rwa [map_getD_range] at hm

/-- The seeded character always belongs to its alphabet. -/
theorem pickChar_mem (alphabet : List Char) (r : Nat) (h : alphabet ≠ []) :
    pickChar alphabet r ∈ alphabet := by
  have hlen : 0 < alphabet.length := List.length_pos.mpr h
  have hmod : r % alphabet.length < alphabet.length := Nat.mod_lt _ hlen
  unfold pickChar
  rw [List.getD_eq_getElem?_getD, List.getElem?_eq_getElem hmod]
  exact List.getElem_mem hmod

/-- A password shorter than 12 characters never validates. -/
theorem validatePassword_short_invalid (password : String)
    (email : Option String) (h : password.toList.length < 12) :
    (validatePassword password email).valid = false := by
  unfold validatePassword
  simp only [if_pos h, List.cons_append, List.isEmpty_cons]

/-- Counterexample to C8 as stated: one concrete outcome of the random
choices for `generate(4)` (a genuine outcome: the shuffle really is a
permutation of the four positions) yields the password `"aA0!"`, which
`validate` rejects, so not every generated password with `n ≥ 4` passes
`validate`. -/
theorem generateSecurePassword_validate_cex :
    (validatePassword
        (String.mk (generateSecurePassword ⟨0, 0, 0, 0, fun _ => 0, [0, 1, 2, 3]⟩ 4))
        none).valid = false
    ∧ ([0, 1, 2, 3] : List Nat).Perm
        (List.range (4 + ((4 : Int) - 4).toNat)) := by
  exact ⟨by decide, by decide⟩

/-- C8 (amended): for every requested length and every outcome of the
random choices, the generated password contains at least one character of
each of the four required classes; but it does not always pass `validate` —
for every requested length `4 ≤ n < 12` every outcome fails the minimum
length rule. -/
theorem generateSecurePassword_classes (rand : Rand) (length : Int)
    (hperm : rand.shuffle.Perm (List.range (4 + (length - 4).toNat))) :
    (∃ c ∈ generateSecurePassword rand length, isLowerAlpha c = true)
    ∧ (∃ c ∈ generateSecurePassword rand length, isUpperAlpha c = true)
    ∧ (∃ c ∈ generateSecurePassword rand length, isDigitChar c = true)
    ∧ (∃ c ∈ generateSecurePassword rand length, isSpecialChar c = true)
    ∧ (4 ≤ length → length < 12 →
        (validatePassword (String.mk (generateSecurePassword rand length))
            none).valid = false) := by
  have hflen : ([pickChar lowercaseChars rand.low, pickChar uppercaseChars rand.up,
      pickChar numberChars rand.dig, pickChar symbolChars rand.sym]
      ++ (List.range (length - 4).toNat).map
          (fun i => pickChar allChars (rand.fill i))).length
      = 4 + (length - 4).toNat := by
    simp
    omega
  have hpermOut : (generateSecurePassword rand length).Perm
      ([pickChar lowercaseChars rand.low, pickChar uppercaseChars rand.up,
        pickChar numberChars rand.dig, pickChar symbolChars rand.sym]
        ++ (List.range (length - 4).toNat).map
            (fun i => pickChar allChars (rand.fill i))) := by
    unfold generateSecurePassword
    refine shuffle_perm_of_range rand.shuffle _ ' ' ?_
    rw [hflen]
    exact hperm
  have hbase : ∀ c ∈ ([pickChar lowercaseChars rand.low,
      pickChar uppercaseChars rand.up, pickChar numberChars rand.dig,
      pickChar symbolChars rand.sym] : List Char),
      c ∈ generateSecurePassword rand length := by
    intro c hc
    exact hpermOut.mem_iff.mpr (List.mem_append_left _ hc)
  refine ⟨?_, ?_, ?_, ?_, ?_⟩
  · refine ⟨pickChar lowercaseChars rand.low,
      hbase _ (by simp), ?_⟩
    have hcls : ∀ c ∈ lowercaseChars, isLowerAlpha c = true := by decide
    exact hcls _ (pickChar_mem lowercaseChars rand.low (by decide))
  · refine ⟨pickChar uppercaseChars rand.up, hbase _ (by simp), ?_⟩
    have hcls : ∀ c ∈ uppercaseChars, isUpperAlpha c = true := by decide
    exact hcls _ (pickChar_mem uppercaseChars rand.up (by decide))
  · refine ⟨pickChar numberChars rand.dig, hbase _ (by simp), ?_⟩
    have hcls : ∀ c ∈ numberChars, isDigitChar c = true := by decide
    exact hcls _ (pickChar_mem numberChars rand.dig (by decide))
  · refine ⟨pickChar symbolChars rand.sym, hbase _ (by simp), ?_⟩
    have hcls : ∀ c ∈ symbolChars, isSpecialChar c = true := by decide
    exact hcls _ (pickChar_mem symbolChars rand.sym (by decide))
  · intro h4 h12
    refine validatePassword_short_invalid _ none ?_
    have htl : (String.mk (generateSecurePassword rand length)).toList
        = generateSecurePassword rand length := rfl
    rw [htl, hpermOut.length_eq, hflen]
    omega

/-- Witness for the amended C8 at `length = 5` and a concrete outcome. -/
theorem generateSecurePassword_classes_witness :
    ∃ c ∈ generateSecurePassword ⟨0, 0, 0, 0, fun _ => 0, [4, 3, 2, 1, 0]⟩ 5,
      isLowerAlpha c = true :=
  (generateSecurePassword_classes ⟨0, 0, 0, 0, fun _ => 0, [4, 3, 2, 1, 0]⟩ 5
    (by decide)).1

/-- C10: for every requested length strictly below 4 (zero and negative
included) and every outcome of the random choices,
`generateSecurePassword(length)` returns exactly 4 characters — a
permutation of one lowercase letter, one uppercase letter, one digit and
one symbol. -/
theorem generateSecurePassword_short (rand : Rand) (length : Int)
    (hlen : length < 4) (hperm : rand.shuffle.Perm (List.range 4)) :
    (generateSecurePassword rand length).length = 4
    ∧ ∃ a b c d, isLowerAlpha a = true ∧ isUpperAlpha b = true
        ∧ isDigitChar c = true ∧ isSpecialChar d = true
        ∧ (generateSecurePassword rand length).Perm [a, b, c, d] := by
  have h0 : (length - 4).toNat = 0 := by omega
  have hpermOut : (generateSecurePassword rand length).Perm
      [pickChar lowercaseChars rand.low, pickChar uppercaseChars rand.up,
       pickChar numberChars rand.dig, pickChar symbolChars rand.sym] := by
    unfold generateSecurePassword
    rw [h0]
    simp only [List.range_zero, List.map_nil, List.append_nil]
    exact shuffle_perm_of_range rand.shuffle _ ' ' (by simpa using hperm)
  refine ⟨by rw [hpermOut.length_eq]; rfl, ?_⟩
  refine ⟨pickChar lowercaseChars rand.low, pickChar uppercaseChars rand.up,
    pickChar numberChars rand.dig, pickChar symbolChars rand.sym,
    ?_, ?_, ?_, ?_, hpermOut⟩
  · have hcls : ∀ c ∈ lowercaseChars, isLowerAlpha c = true := by decide
    exact hcls _ (pickChar_mem lowercaseChars rand.low (by decide))
  · have hcls : ∀ c ∈ uppercaseChars, isUpperAlpha c = true := by decide
    exact hcls _ (pickChar_mem uppercaseChars rand.up (by decide))
  · have hcls : ∀ c ∈ numberChars, isDigitChar c = true := by decide
    exact hcls _ (pickChar_mem numberChars rand.dig (by decide))
  · have hcls : ∀ c ∈ symbolChars, isSpecialChar c = true := by decide
    exact hcls _ (pickChar_mem symbolChars rand.sym (by decide))

/-- Witness for C10 at `length = -3` and a concrete outcome. -/
theorem generateSecurePassword_short_witness :
    (generateSecurePassword ⟨0, 0, 0, 0, fun _ => 0, [3, 2, 1, 0]⟩ (-3)).length
      = 4 :=
  (generateSecurePassword_short ⟨0, 0, 0, 0, fun _ => 0, [3, 2, 1, 0]⟩ (-3)
    (by decide) (by decide)).1

end DudaPortal
